import Mathlib

/-!
Verification of the plan-parsing core of the AI Wellness Assistant
(src/app.py). The definitions below are a shallow embedding of the Python
functions `parse_weekly_plan`, `generate_api_call`, `generate_wellness_plan`
and the Alternative-button handler, translated statement by statement from
the source. Python regular expressions are embedded by implementing, for
each concrete pattern appearing in the source, the backtracking semantics
of `re.search` / `re.split` / `re.findall` on that pattern (leftmost match,
greedy `\s*` and `\d+`, lazy `(.*?)`, lookahead `(?=...)`, `$` matching at
the end of the string or before a final newline, `\Z` matching only at the
very end). Character classes are the ASCII reading of `\s` and `\d`.
-/

namespace WellnessApp

/-- Python's `\s` character class (ASCII range): space, tab, newline,
carriage return, vertical tab, form feed. -/
def isPyWs (c : Char) : Bool :=
  c = ' ' || c = '\t' || c = '\n' || c = '\r' || c = '\x0b' || c = '\x0c'

/-- Python's `\d` character class (ASCII range). -/
def isPyDigit (c : Char) : Bool :=
  '0' ≤ c && c ≤ '9'

/-- Python's `str.strip()`: remove `\s` characters from both ends. -/
def pyStrip (s : List Char) : List Char :=
  ((s.dropWhile isPyWs).reverse.dropWhile isPyWs).reverse

/-- `pat` is a prefix of `s` (character lists). -/
def startsWithChars : List Char → List Char → Bool
  | [], _ => true
  | _ :: _, [] => false
  | p :: ps, c :: cs => p = c && startsWithChars ps cs

/-- Match the regex `##\s*Day\s*\d+\s*##` anchored at the head of `s`
(the day-marker pattern of `re.split` in `parse_weekly_plan`,
src/app.py line 382). Greedy `\s*` and `\d+` never need to backtrack here
because each is followed by a character outside its class, so maximal munch
is exact. Returns the text after the match. -/
def matchDayMarkerAt (s : List Char) : Option (List Char) :=
  match s with
  | '#' :: '#' :: r1 =>
    match r1.dropWhile isPyWs with
    | 'D' :: 'a' :: 'y' :: r2 =>
      let r3 := r2.dropWhile isPyWs
      if (r3.takeWhile isPyDigit).isEmpty then none
      else
        match (r3.dropWhile isPyDigit).dropWhile isPyWs with
        | '#' :: '#' :: r4 => some r4
        | _ => none
    | _ => none
  | _ => none

/-- Scanner for `re.split(r"##\s*Day\s*\d+\s*##", plan_text)`: scan left to
right, cutting at every day-marker match. `fuel` bounds the recursion; the
caller passes the length of the text, which is never exhausted because each
step consumes at least one character. `acc` holds the current segment,
reversed. -/
def splitDaysAux : Nat → List Char → List Char → List (List Char)
  | 0, _, acc => [acc.reverse]
  | _ + 1, [], acc => [acc.reverse]
  | fuel + 1, c :: rest, acc =>
    match matchDayMarkerAt (c :: rest) with
    | some rem => acc.reverse :: splitDaysAux fuel rem []
    | none => splitDaysAux fuel rest (c :: acc)

/-- `re.split(r"##\s*Day\s*\d+\s*##", plan_text)` (src/app.py line 382). -/
def splitDays (s : List Char) : List (List Char) :=
  splitDaysAux s.length s []

/-- The lookahead `(?=la|$)` holds at the current position: either `la` is a
prefix of the remaining text, or `$` matches — Python `$` without
`re.MULTILINE` matches at the end of the string or just before a newline
that ends the string. -/
def lookaheadHere (la s : List Char) : Bool :=
  startsWithChars la s || s.isEmpty || s = ['\n']

/-- The trailing greedy `\s*` before the lookahead: the lookahead holds after
skipping some (possibly empty) prefix of the whitespace run starting here. -/
def lookaheadWithinWs (la : List Char) : List Char → Bool
  | [] => true
  | s@(c :: rest) => lookaheadHere la s || (isPyWs c && lookaheadWithinWs la rest)

/-- The lazy group `(.*?)` of `\s*(.*?)\s*(?=la|$)` under `re.DOTALL`: the
shortest prefix after whose end the trailing `\s*` plus lookahead succeed.
The pattern as a whole always succeeds because `$` holds at the end of the
text. -/
def lazyCapture (la : List Char) : List Char → List Char
  | [] => []
  | s@(c :: rest) => if lookaheadWithinWs la s then [] else c :: lazyCapture la rest

/-- Leftmost occurrence of the literal `lit` in `s`; returns the text
following the occurrence. -/
def findAfterLit (lit s : List Char) : Option (List Char) :=
  if startsWithChars lit s then some (s.drop lit.length)
  else
    match s with
    | [] => none
    | _ :: rest => findAfterLit lit rest

/-- `re.search(lit + r"\s*(.*?)\s*(?=" + la + r"|$)", s, re.DOTALL)`: the
captured group 1, or `none` when the pattern does not match. The pattern
matches exactly when the literal occurs, and the leading greedy `\s*` always
keeps its maximal munch because the tail of the pattern can succeed from any
position (`$` holds at the end). -/
def searchGroup (lit la s : List Char) : Option (List Char) :=
  (findAfterLit lit s).map fun rest => lazyCapture la (rest.dropWhile isPyWs)

/-- `"### Disclaimer ###"` — the literal head of the disclaimer regex
(src/app.py line 384). -/
def disclaimerMarker : List Char := "### Disclaimer ###".data

/-- `"### Estimated Daily Calorie Target ###"` (src/app.py line 389). -/
def calorieMarker : List Char := "### Estimated Daily Calorie Target ###".data

/-- `"### Detailed Diet Plan ###"` (src/app.py line 390). -/
def dietMarker : List Char := "### Detailed Diet Plan ###".data

/-- `"### Detailed Exercise Plan ###"` (src/app.py line 391). -/
def exerciseMarker : List Char := "### Detailed Exercise Plan ###".data

/-- `"### Motivational Tip ###"` (src/app.py line 392). -/
def motivationMarker : List Char := "### Motivational Tip ###".data

/-- The lookahead alternative `\n##` of the disclaimer regex. -/
def laDay : List Char := "\n##".data

/-- The lookahead alternative `\n###` of the four subsection regexes. -/
def laSub : List Char := "\n###".data

/-- `v.group(1).strip() if v else ""` for one subsection regex
`### <label> ###\s*(.*?)\s*(?=\n###|$)` within a day block
(src/app.py lines 388-394). -/
def fieldValue (lit day : List Char) : List Char :=
  match searchGroup lit laSub day with
  | some g => pyStrip g
  | none => []

/-- `"\n**"` — the lookahead of the item regex. -/
def nlBoldOpen : List Char := "\n**".data

/-- The `\s*\n` after the closing `**` of an item title: greedy `\s*` then a
literal `\n`, which backtracks to the last newline inside the whitespace run
starting here. Returns the text after that newline, or `none` when the run
contains no newline. -/
def splitAtLastNl : List Char → Option (List Char)
  | [] => none
  | c :: rest =>
    if isPyWs c then
      match splitAtLastNl rest with
      | some w => some w
      | none => if c = '\n' then some rest else none
    else none

/-- The lazy body group `(.*?)(?=\n\*\*|\Z)` under `re.DOTALL`: text up to
the next `\n**` or (`\Z`) the very end. Returns the body and the remaining
text at the match end (the lookahead is not consumed). -/
def bodyCapture : List Char → List Char × List Char
  | [] => ([], [])
  | s@(c :: rest) =>
    if startsWithChars nlBoldOpen s then ([], s)
    else
      let p := bodyCapture rest
      (c :: p.1, p.2)

/-- One attempt to close an item title at the current position: the
`\s*\*\*\s*\n` of the item regex followed by the body group. The greedy
`\s*` before `**` cannot backtrack usefully (`*` is not whitespace), so the
closing `**` must sit at the end of the whitespace run. -/
def tryCloseItem (t : List Char) : Option (List Char × List Char) :=
  match t.dropWhile isPyWs with
  | a :: b :: v => if a = '*' ∧ b = '*' then (splitAtLastNl v).map bodyCapture else none
  | _ => none

/-- Scan for the end of the lazy title group `(.*?)` of the item regex: the
shortest title after which the close (and the rest of the pattern) succeeds.
`acc` holds the title read so far, reversed. -/
def itemNameScan : List Char → List Char → Option (List Char × List Char × List Char)
  | [], acc => (tryCloseItem []).map fun p => (acc.reverse, p.1, p.2)
  | c :: rest, acc =>
    match tryCloseItem (c :: rest) with
    | some p => some (acc.reverse, p.1, p.2)
    | none => itemNameScan rest (c :: acc)

/-- Match `\*\*\s*(.*?)\s*\*\*\s*\n(.*?)(?=\n\*\*|\Z)` (src/app.py lines
396-397) anchored at the head of `s`: on success, the two captured groups
and the remaining text at the match end. The leading greedy `\s*` keeps its
maximal munch: a match from any shorter munch would put the title start on a
whitespace character that the title's own scan would re-skip to the same
close, so no new matches arise from backtracking it. -/
def matchItemAt : List Char → Option (List Char × List Char × List Char)
  | a :: b :: rest => if a = '*' ∧ b = '*' then itemNameScan (rest.dropWhile isPyWs) [] else none
  | _ => none

/-- `re.findall` scanner for the item regex: try each start position left to
right, resuming after each match end. `fuel` bounds the recursion; the
caller passes the length of the text, which is never exhausted because every
match consumes at least one character. -/
def findAllItemsAux : Nat → List Char → List (List Char × List Char)
  | 0, _ => []
  | _ + 1, [] => []
  | fuel + 1, c :: rest =>
    match matchItemAt (c :: rest) with
    | some r => (r.1, r.2.1) :: findAllItemsAux fuel r.2.2
    | none => findAllItemsAux fuel rest

/-- `re.findall(r"\*\*\s*(.*?)\s*\*\*\s*\n(.*?)(?=\n\*\*|\Z)", s, re.DOTALL)`
(src/app.py lines 396-397). -/
def findAllItems (s : List Char) : List (List Char × List Char) :=
  findAllItemsAux s.length s

/-- One parsed day: the dictionary built by the loop body of
`parse_weekly_plan` (src/app.py lines 387-398). `calories`, `motivation`
and `disclaimer` are strings; `diet` and `exercise` are the
`(name, instructions)` pair lists produced by `re.findall`. -/
structure DayPlan where
  calories : String
  diet : List (String × String)
  exercise : List (String × String)
  motivation : String
  disclaimer : String
deriving DecidableEq, Repr

/-- The fallback disclaimer string of src/app.py line 385. -/
def defaultDisclaimer : String := "Standard disclaimer not found."

/-- `disclaimer.group(1).strip() if disclaimer else "Standard disclaimer
not found."` for `re.search(r"### Disclaimer ###\s*(.*?)\s*(?=\n##|$)",
plan_text, re.DOTALL)` (src/app.py lines 384-385). -/
def disclaimerText (s : List Char) : List Char :=
  match searchGroup disclaimerMarker laDay s with
  | some g => pyStrip g
  | none => defaultDisclaimer.data

/-- The loop body of `parse_weekly_plan`: extract the four subsection
fields from one day block, attach the shared disclaimer, and run item
extraction over the diet and exercise strings (src/app.py lines 387-398). -/
def buildDayPlan (disclaimer day_content : List Char) : DayPlan where
  calories := ⟨fieldValue calorieMarker day_content⟩
  diet := (findAllItems (fieldValue dietMarker day_content)).map fun p => (⟨p.1⟩, ⟨p.2⟩)
  exercise := (findAllItems (fieldValue exerciseMarker day_content)).map fun p => (⟨p.1⟩, ⟨p.2⟩)
  motivation := ⟨fieldValue motivationMarker day_content⟩
  disclaimer := ⟨disclaimer⟩

/-- `parse_weekly_plan` (src/app.py lines 380-399): split on day markers,
drop the text before the first marker (`[1:]`), and build one `DayPlan` per
remaining block. There is no padding to 7 entries and no truncation. -/
def parse_weekly_plan (plan_text : String) : List DayPlan :=
  ((splitDays plan_text.data).drop 1).map (buildDayPlan (disclaimerText plan_text.data))

/-- Calling `parse_weekly_plan` with a possibly-`None` argument: `re.split`
raises `TypeError` when handed `None`, so the call propagates an error
instead of returning a plan. -/
def parse_weekly_plan_opt : Option String → Except String (List DayPlan)
  | none => .error "TypeError: expected string or bytes-like object"
  | some s => .ok (parse_weekly_plan s)

/-- The profile values read from the sidebar widgets (src/app.py lines
623-632): integer sliders for age, height and weight; select boxes for the
rest. -/
structure UserProfile where
  age : Nat
  gender : String
  height : Nat
  weight : Nat
  diet_preference : String
  fitness_goal : String
deriving DecidableEq, Repr

/-- The f-string prompt template of `generate_wellness_plan`
(src/app.py lines 418-457), with the six profile values interpolated the way
Python's f-string renders them. -/
def wellness_prompt (p : UserProfile) : String :=
  "\n    Act as an expert wellness coach. A user has provided their details for a personalized plan.\n    Your response MUST be structured for a full 7-day week.\n    Start with a general disclaimer under the heading \"### Disclaimer ###\".\n    Then, for each day from 1 to 7, use a main heading \"## Day X ##\".\n    Under each day, provide the following exact Markdown subheadings:\n    ### Estimated Daily Calorie Target ###\n    ### Detailed Diet Plan ###\n    ### Detailed Exercise Plan ###\n    ### Motivational Tip ###\n\n    **User\x27s Details:**\n    - Age: "
    ++ toString p.age ++ ", Gender: " ++ p.gender ++ ", Height: " ++ toString p.height
    ++ " cm, Weight: " ++ toString p.weight ++ " kg\n    - Preference: " ++ p.diet_preference
    ++ ", Goal: " ++ p.fitness_goal
    ++ "\n\n    **CRITICAL REQUIREMENTS:**\n    \n    For the Diet Plan section:\n    - Provide at least 4 meals per day (Breakfast, Lunch, Snack, Dinner)\n    - Format: **Meal Name: Specific Dish**\n    - Follow with detailed preparation instructions and portion sizes\n    - Example: **Breakfast: Overnight Oats**\n    Mix 1/2 cup rolled oats with 1/2 cup almond milk, 1 tbsp chia seeds...\n    \n    For the Exercise Plan section:\n    - Provide at least 4-5 exercises per day\n    - Format: **Exercise Name: Specific Movement**\n    - Include sets, reps, duration, and form cues\n    - Example: **Cardio: Brisk Walking**\n    30 minutes at moderate pace, maintain good posture, swing arms naturally...\n    \n    **Warm-up: Dynamic Stretching**\n    5-10 minutes of arm circles, leg swings, and light movements...\n    \n    **Strength: Push-ups**\n    3 sets of 8-12 repetitions, keep body straight, lower chest to floor...\n    \n    Make the plan comprehensive, realistic, and scientifically sound.\n    Ensure both diet AND exercise sections are fully populated for each day.\n    "

/-- `generate_api_call` (src/app.py lines 401-414): sends the prompt to the
external chat-completion service and returns the response text, or `None`
when the call raises (the `except` branch). The external service is
modelled as an oracle from prompt to optional response text. -/
def generate_api_call (prompt : String) (api : String → Option String) : Option String :=
  api prompt

/-- `generate_wellness_plan` (src/app.py lines 416-458): builds the prompt
from the profile and returns `generate_api_call(prompt)` — the service's
response (or `None`), not the prompt string. -/
def generate_wellness_plan (p : UserProfile) (api : String → Option String) : Option String :=
  generate_api_call (wellness_prompt p) api

/-- The Alternative-button handler (src/app.py lines 886-891): it requests
alternative text for the clicked item and, when text comes back, displays it
via `st.success`. Nothing is written to `st.session_state.weekly_plan`, so
the stored plan is unchanged whatever the day index, item index or
replacement text. Returns the (unchanged) plan together with the displayed
message, if any. -/
def suggest_alternative (plan : List DayPlan) (_dayIdx _itemIdx : Nat)
    (alternative : Option String) : List DayPlan × Option String :=
  (plan, alternative.map fun a => "💡 **Alternative Meal:**\n\n" ++ a)

/-! ## Structural lemmas shared by the claim theorems -/

theorem splitDaysAux_ne_nil (fuel : Nat) (s acc : List Char) :
    splitDaysAux fuel s acc ≠ [] := by
  induction fuel generalizing s acc with
  | zero => simp [splitDaysAux]
  | succ n ih =>
    cases s with
    | nil => simp [splitDaysAux]
    | cons c rest =>
      simp only [splitDaysAux]
      cases matchDayMarkerAt (c :: rest) with
      | some rem => simp
      | none => exact ih rest (c :: acc)

theorem mem_parse_iff (s : String) (d : DayPlan) :
    d ∈ parse_weekly_plan s ↔
      ∃ c ∈ (splitDays s.data).drop 1, buildDayPlan (disclaimerText s.data) c = d := by
  simp only [parse_weekly_plan, List.mem_map]

theorem disclaimer_of_mem_parse (s : String) (d : DayPlan)
    (h : d ∈ parse_weekly_plan s) : d.disclaimer = ⟨disclaimerText s.data⟩ := by
  rcases (mem_parse_iff s d).mp h with ⟨c, _, rfl⟩
  rfl

/-! ## Claim C1 -/

/-- C1 (counterexample): the claim "parsing always returns exactly 7 DayPlan
entries, padded or truncated, without throwing even on None" is false on the
code: the empty string parses to 0 entries, an input with 8 day markers
parses to 8 entries, and a `None` argument raises `TypeError` instead of
returning a plan. -/
theorem C1_counterexample :
    (parse_weekly_plan "").length ≠ 7 ∧
    (parse_weekly_plan "## Day 1 ##x## Day 2 ##x## Day 3 ##x## Day 4 ##x## Day 5 ##x## Day 6 ##x## Day 7 ##x## Day 8 ##x").length ≠ 7 ∧
    parse_weekly_plan_opt none =
      Except.error "TypeError: expected string or bytes-like object" :=
  ⟨by decide, by decide, rfl⟩

/-- C1 (amended): for every input string the parser returns exactly one
`DayPlan` per day-marker-delimited block after the first segment — one fewer
than the number of split segments — with no padding to 7 and no truncation;
a `None` input raises `TypeError` instead of returning a plan. -/
theorem C1_theorem (s : String) :
    (parse_weekly_plan s).length + 1 = (splitDays s.data).length ∧
    parse_weekly_plan_opt none =
      Except.error "TypeError: expected string or bytes-like object" := by
  constructor
  · have h : splitDays s.data ≠ [] := splitDaysAux_ne_nil s.data.length s.data []
    have hpos : 0 < (splitDays s.data).length := List.length_pos.mpr h
    simp only [parse_weekly_plan, List.length_map, List.length_drop]
    omega
  · rfl

/-! ## Claim C2 -/

/-- C2: for every input, the `disclaimer` fields of all `DayPlan` entries in
the parser's output are pairwise equal — the disclaimer text is computed
once from the whole response and copied into every day. -/
theorem C2_theorem (s : String) (d₁ d₂ : DayPlan)
    (h₁ : d₁ ∈ parse_weekly_plan s) (h₂ : d₂ ∈ parse_weekly_plan s) :
    d₁.disclaimer = d₂.disclaimer := by
  rw [disclaimer_of_mem_parse s d₁ h₁, disclaimer_of_mem_parse s d₂ h₂]

/-- C2 (witness): two distinct days from one concrete parse share the
disclaimer. -/
theorem C2_witness :
    ({ calories := "", diet := [], exercise := [], motivation := "",
       disclaimer := "hello ## Day 2 ##" } : DayPlan).disclaimer =
    ({ calories := "", diet := [], exercise := [], motivation := "Go!",
       disclaimer := "hello ## Day 2 ##" } : DayPlan).disclaimer :=
  C2_theorem "### Disclaimer ### hello ## Day 2 ## \n## Day 3 ##\n### Motivational Tip ###\n  Go!  \n"
    _ _ (by decide) (by decide)

/-! ## Claim C3 -/

/-- C3 (counterexample): the claim "the disclaimer marker is searched
case-insensitively and the fallback default is the fixed string 'Please
consult a professional before starting any new diet or exercise program.'"
is false on the code: a lower-case marker is not recognised, and the
fallback string is "Standard disclaimer not found.". -/
theorem C3_counterexample :
    (parse_weekly_plan "## Day 1 ##x").map DayPlan.disclaimer =
      ["Standard disclaimer not found."] ∧
    (parse_weekly_plan "### disclaimer ###\nBe careful.\n## Day 1 ##x").map DayPlan.disclaimer =
      ["Standard disclaimer not found."] ∧
    ("Standard disclaimer not found." : String) ≠
      "Please consult a professional before starting any new diet or exercise program." :=
  ⟨by decide, by decide, by decide⟩

/-- C3 (amended): the parser searches case-sensitively for the single
spelling `### Disclaimer ###`; whenever that literal does not occur in the
input (including the lower-case variants), every `DayPlan` in the output
carries the fixed default disclaimer "Standard disclaimer not found.". -/
theorem C3_theorem (s : String) (d : DayPlan)
    (hd : d ∈ parse_weekly_plan s)
    (hn : findAfterLit disclaimerMarker s.data = none) :
    d.disclaimer = "Standard disclaimer not found." := by
  rw [disclaimer_of_mem_parse s d hd]
  simp [disclaimerText, searchGroup, hn, defaultDisclaimer]

/-- C3 (witness): a concrete input with a day block and no disclaimer marker. -/
theorem C3_witness :
    ({ calories := "", diet := [], exercise := [], motivation := "",
       disclaimer := "Standard disclaimer not found." } : DayPlan).disclaimer =
      "Standard disclaimer not found." :=
  C3_theorem "## Day 1 ##x" _ (by decide) (by decide)

/-! ## Claim C4 -/

/-- C4 (counterexample): the claim that the four subsection markers are
searched case-insensitively is false on the code: a lower-case calorie
marker is not recognised, so the field is the empty string instead of the
text "1800 kcal" that a case-insensitive search would have captured. -/
theorem C4_counterexample :
    (parse_weekly_plan "## Day 1 ##\n### estimated daily calorie target ###\n1800 kcal").map
        DayPlan.calories = [""] ∧
    ("" : String) ≠ "1800 kcal" :=
  ⟨by decide, by decide⟩

/-- C4 (amended): within each day block the four subsection fields are
extracted independently, each by a case-sensitive search for its exact
marker literal that captures the text after the marker up to the next
`\n###` lookahead or the end of the block, trimmed; a marker that does not
occur yields the empty string (empty item list for diet/exercise) for that
field only, and extraction of the day never fails. -/
theorem C4_theorem (s : String) (d : DayPlan) (hd : d ∈ parse_weekly_plan s) :
    ∃ c ∈ (splitDays s.data).drop 1,
      d.calories = ⟨fieldValue calorieMarker c⟩ ∧
      d.motivation = ⟨fieldValue motivationMarker c⟩ ∧
      d.diet = (findAllItems (fieldValue dietMarker c)).map (fun p => (⟨p.1⟩, ⟨p.2⟩)) ∧
      d.exercise = (findAllItems (fieldValue exerciseMarker c)).map (fun p => (⟨p.1⟩, ⟨p.2⟩)) ∧
      (findAfterLit calorieMarker c = none → d.calories = "") ∧
      (findAfterLit motivationMarker c = none → d.motivation = "") ∧
      (findAfterLit dietMarker c = none → d.diet = []) ∧
      (findAfterLit exerciseMarker c = none → d.exercise = []) := by
  rcases (mem_parse_iff s d).mp hd with ⟨c, hc, rfl⟩
  refine ⟨c, hc, rfl, rfl, rfl, rfl, ?_, ?_, ?_, ?_⟩ <;>
    · intro hn
      simp [buildDayPlan, fieldValue, searchGroup, hn, findAllItems, findAllItemsAux]

/-- C4 (witness): a concrete day block containing none of the four markers. -/
theorem C4_witness :
    ∃ c ∈ (splitDays ("## Day 1 ##x" : String).data).drop 1,
      ({ calories := "", diet := [], exercise := [], motivation := "",
         disclaimer := "Standard disclaimer not found." } : DayPlan).calories =
          ⟨fieldValue calorieMarker c⟩ ∧
      ({ calories := "", diet := [], exercise := [], motivation := "",
         disclaimer := "Standard disclaimer not found." } : DayPlan).motivation =
          ⟨fieldValue motivationMarker c⟩ ∧
      ({ calories := "", diet := [], exercise := [], motivation := "",
         disclaimer := "Standard disclaimer not found." } : DayPlan).diet =
          (findAllItems (fieldValue dietMarker c)).map (fun p => (⟨p.1⟩, ⟨p.2⟩)) ∧
      ({ calories := "", diet := [], exercise := [], motivation := "",
         disclaimer := "Standard disclaimer not found." } : DayPlan).exercise =
          (findAllItems (fieldValue exerciseMarker c)).map (fun p => (⟨p.1⟩, ⟨p.2⟩)) ∧
      (findAfterLit calorieMarker c = none →
        ({ calories := "", diet := [], exercise := [], motivation := "",
           disclaimer := "Standard disclaimer not found." } : DayPlan).calories = "") ∧
      (findAfterLit motivationMarker c = none →
        ({ calories := "", diet := [], exercise := [], motivation := "",
           disclaimer := "Standard disclaimer not found." } : DayPlan).motivation = "") ∧
      (findAfterLit dietMarker c = none →
        ({ calories := "", diet := [], exercise := [], motivation := "",
           disclaimer := "Standard disclaimer not found." } : DayPlan).diet = []) ∧
      (findAfterLit exerciseMarker c = none →
        ({ calories := "", diet := [], exercise := [], motivation := "",
           disclaimer := "Standard disclaimer not found." } : DayPlan).exercise = []) :=
  C4_theorem "## Day 1 ##x" _ (by decide)

/-! ## Claim C5: lemmas about the item regex on a well-formed bold title -/

theorem dropWhile_first (p : Char → Bool) :
    ∀ l : List Char, (∃ c ∈ l, p c = false) →
      ∃ z zs, l.dropWhile p = z :: zs ∧ z ∈ l ∧ p z = false := by
  intro l
  induction l with
  | nil => rintro ⟨c, hc, -⟩; cases hc
  | cons x rest ih =>
    intro h
    cases hx : p x with
    | false => exact ⟨x, rest, by simp [List.dropWhile, hx], by simp, hx⟩
    | true =>
      have h' : ∃ c ∈ rest, p c = false := by
        rcases h with ⟨c, hc, hcp⟩
        rcases List.mem_cons.mp hc with rfl | hc'
        · rw [hx] at hcp; cases hcp
        · exact ⟨c, hc', hcp⟩
      rcases ih h' with ⟨z, zs, h1, h2, h3⟩
      exact ⟨z, zs, by simp [List.dropWhile, hx, h1], List.mem_cons_of_mem _ h2, h3⟩

theorem dropWhile_append_of_mem (p : Char → Bool) :
    ∀ xs ys : List Char, (∃ c ∈ xs, p c = false) →
      (xs ++ ys).dropWhile p = xs.dropWhile p ++ ys := by
  intro xs
  induction xs with
  | nil => rintro ys ⟨c, hc, -⟩; cases hc
  | cons x rest ih =>
    intro ys h
    cases hx : p x with
    | false => simp [List.dropWhile, hx]
    | true =>
      have h' : ∃ c ∈ rest, p c = false := by
        rcases h with ⟨c, hc, hcp⟩
        rcases List.mem_cons.mp hc with rfl | hc'
        · rw [hx] at hcp; cases hcp
        · exact ⟨c, hc', hcp⟩
      simp [List.dropWhile, hx, ih ys h']

theorem getLastD_mem_cons : ∀ (l : List Char) (d : Char), l.getLastD d ∈ d :: l := by
  intro l
  induction l with
  | nil => intro d; simp [List.getLastD]
  | cons y rest ih =>
    intro d
    have := ih y
    simp only [List.getLastD_cons]
    rcases List.mem_cons.mp this with h | h
    · rw [h]; simp
    · exact List.mem_cons_of_mem _ (List.mem_cons_of_mem _ h)

theorem splitAtLastNl_eq_none :
    ∀ l : List Char, (∀ c ∈ l, c ≠ '\n') → splitAtLastNl l = none := by
  intro l
  induction l with
  | nil => intro _; rfl
  | cons c rest ih =>
    intro h
    have hc : c ≠ '\n' := h c (by simp)
    by_cases hw : isPyWs c
    · simp [splitAtLastNl, hw, ih fun x hx => h x (List.mem_cons_of_mem _ hx), hc]
    · simp [splitAtLastNl, hw]

theorem bodyCapture_no_nl :
    ∀ l : List Char, (∀ c ∈ l, c ≠ '\n') → bodyCapture l = (l, []) := by
  intro l
  induction l with
  | nil => intro _; rfl
  | cons c rest ih =>
    intro h
    have hc : ('\n' = c) = False := by
      simp [(h c (by simp)).symm]
    simp [bodyCapture, startsWithChars, nlBoldOpen, hc,
      ih fun x hx => h x (List.mem_cons_of_mem _ hx)]

theorem tryCloseItem_bold_nl (body : List Char) (hbody : ∀ c ∈ body, c ≠ '\n') :
    tryCloseItem ('*' :: '*' :: '\n' :: body) = some (body, []) := by
  have h1 : splitAtLastNl ('\n' :: body) = some body := by
    simp [splitAtLastNl, splitAtLastNl_eq_none body hbody, isPyWs]
  have h2 : List.dropWhile isPyWs ('*' :: '*' :: '\n' :: body) =
      '*' :: '*' :: '\n' :: body := by
    simp [List.dropWhile, isPyWs]
  simp [tryCloseItem, h2, h1, bodyCapture_no_nl body hbody]

theorem tryCloseItem_eq_none_of (xs ys : List Char) (hys : ys ≠ [])
    (hstar : ∀ c ∈ xs, c ≠ '*') (hnws : ∃ c ∈ xs, isPyWs c = false) :
    tryCloseItem (xs ++ ys) = none := by
  obtain ⟨z, zs, hdw, hz, hzws⟩ := dropWhile_first isPyWs xs hnws
  have hall : (xs ++ ys).dropWhile isPyWs = z :: (zs ++ ys) := by
    rw [dropWhile_append_of_mem isPyWs xs ys hnws, hdw]; rfl
  have hzstar : z ≠ '*' := hstar z hz
  unfold tryCloseItem
  rw [hall]
  cases hzs : zs ++ ys with
  | nil =>
    rcases List.append_eq_nil.mp hzs with ⟨-, h2⟩
    exact absurd h2 hys
  | cons b v =>
    exact if_neg fun h => hzstar h.1

theorem itemNameScan_cons_none (c : Char) (rest acc : List Char)
    (h : tryCloseItem (c :: rest) = none) :
    itemNameScan (c :: rest) acc = itemNameScan rest (c :: acc) := by
  simp only [itemNameScan, h]

theorem itemNameScan_cons_some (c : Char) (rest acc b r : List Char)
    (h : tryCloseItem (c :: rest) = some (b, r)) :
    itemNameScan (c :: rest) acc = some (acc.reverse, b, r) := by
  simp only [itemNameScan, h]

theorem itemNameScan_through (body : List Char) (hbody : ∀ c ∈ body, c ≠ '\n') :
    ∀ (xs : List Char) (x : Char) (acc : List Char),
      (∀ c ∈ x :: xs, c ≠ '*') → isPyWs (xs.getLastD x) = false →
      itemNameScan ((x :: xs) ++ '*' :: '*' :: '\n' :: body) acc =
        some (acc.reverse ++ (x :: xs), body, []) := by
  intro xs
  induction xs with
  | nil =>
    intro x acc hstar hlast
    have hx : x ≠ '*' := hstar x (by simp)
    have hxw : isPyWs x = false := hlast
    have hclose : tryCloseItem (x :: '*' :: '*' :: '\n' :: body) = none := by
      have := tryCloseItem_eq_none_of [x] ('*' :: '*' :: '\n' :: body) (by simp)
        (by simpa using hx) ⟨x, by simp, hxw⟩
      simpa using this
    calc itemNameScan (([x] : List Char) ++ '*' :: '*' :: '\n' :: body) acc
        = itemNameScan ('*' :: '*' :: '\n' :: body) (x :: acc) :=
          itemNameScan_cons_none x ('*' :: '*' :: '\n' :: body) acc hclose
      _ = some ((x :: acc).reverse, body, []) :=
          itemNameScan_cons_some '*' ('*' :: '\n' :: body) (x :: acc) body []
            (tryCloseItem_bold_nl body hbody)
      _ = some (acc.reverse ++ [x], body, []) := by simp
  | cons y rest ih =>
    intro x acc hstar hlast
    have hlast' : isPyWs (rest.getLastD y) = false := by
      rwa [List.getLastD_cons] at hlast
    have hz : rest.getLastD y ∈ x :: y :: rest :=
      List.mem_cons_of_mem _ (getLastD_mem_cons rest y)
    have hclose : tryCloseItem ((x :: y :: rest) ++ '*' :: '*' :: '\n' :: body) = none :=
      tryCloseItem_eq_none_of (x :: y :: rest) ('*' :: '*' :: '\n' :: body) (by simp)
        hstar ⟨rest.getLastD y, hz, hlast'⟩
    have hstar' : ∀ c ∈ y :: rest, c ≠ '*' :=
      fun c hc => hstar c (List.mem_cons_of_mem _ hc)
    calc itemNameScan ((x :: y :: rest) ++ '*' :: '*' :: '\n' :: body) acc
        = itemNameScan ((y :: rest) ++ '*' :: '*' :: '\n' :: body) (x :: acc) :=
          itemNameScan_cons_none x ((y :: rest) ++ '*' :: '*' :: '\n' :: body) acc hclose
      _ = some ((x :: acc).reverse ++ (y :: rest), body, []) := ih y (x :: acc) hstar' hlast'
      _ = some (acc.reverse ++ (x :: y :: rest), body, []) := by simp

/-- C5 (counterexample): the claim that for a bold title with a
colon-separated subtitle the subtitle alone becomes the item name is false
on the code: the item regex captures the whole bold text, so the parsed diet
item for `**Breakfast: Oats**` is named "Breakfast: Oats", not "Oats". -/
theorem C5_counterexample :
    (parse_weekly_plan "## Day 1 ##\n### Detailed Diet Plan ###\n**Breakfast: Oats**\nCook oats.").map
        DayPlan.diet = [[("Breakfast: Oats", "Cook oats.")]] ∧
    ("Breakfast: Oats" : String) ≠ "Oats" :=
  ⟨by decide, by decide⟩

/-- C5 (amended): a bold-delimited title immediately followed by a line
break and a body becomes one item whose display name is the entire bold
text — label, colon and subtitle included — and whose body runs to the next
bold title or the end of the text: for every title `x :: xs` (no `*`, no
leading or trailing whitespace) and newline-free body, item extraction on
`**` ++ title ++ `**` ++ newline ++ body yields exactly the pair
(title, body). -/
theorem C5_theorem (x : Char) (xs body : List Char)
    (hstar : ∀ c ∈ x :: xs, c ≠ '*')
    (hhead : isPyWs x = false)
    (hlast : isPyWs (xs.getLastD x) = false)
    (hbody : ∀ c ∈ body, c ≠ '\n') :
    findAllItems ('*' :: '*' :: ((x :: xs) ++ '*' :: '*' :: '\n' :: body)) =
      [(x :: xs, body)] := by
  have hdrop : ((x :: xs) ++ '*' :: '*' :: '\n' :: body).dropWhile isPyWs =
      (x :: xs) ++ '*' :: '*' :: '\n' :: body := by
    simp [List.dropWhile, hhead]
  have hmatch : matchItemAt ('*' :: '*' :: ((x :: xs) ++ '*' :: '*' :: '\n' :: body)) =
      some (x :: xs, body, []) := by
    simp only [matchItemAt, hdrop]
    rw [if_pos (by decide)]
    simpa using itemNameScan_through body hbody xs x [] hstar hlast
  simp only [findAllItems, List.length_cons]
  simp only [findAllItemsAux, hmatch]

/-- C5 (witness): the amended statement at the Scenario-B title
`**Breakfast: Oats**` with body "Cook oats.". -/
theorem C5_witness :
    findAllItems ('*' :: '*' :: (('B' :: "reakfast: Oats".data) ++ '*' :: '*' :: '\n' :: "Cook oats.".data)) =
      [('B' :: "reakfast: Oats".data, "Cook oats.".data)] :=
  C5_theorem 'B' "reakfast: Oats".data "Cook oats.".data
    (by decide) (by decide) (by decide) (by decide)

/-! ## Claim C6 -/

theorem matchItemAt_eq_none (c : Char) (rest : List Char) (hc : c ≠ '*') :
    matchItemAt (c :: rest) = none := by
  cases rest with
  | nil => rfl
  | cons b v => exact if_neg fun hh => hc hh.1

theorem findAllItemsAux_no_star : ∀ (fuel : Nat) (t : List Char),
    (∀ c ∈ t, c ≠ '*') → findAllItemsAux fuel t = [] := by
  intro fuel
  induction fuel with
  | zero => intro t _; rfl
  | succ n ih =>
    intro t h
    cases t with
    | nil => rfl
    | cons c rest =>
      have hc : c ≠ '*' := h c (by simp)
      simp only [findAllItemsAux, matchItemAt_eq_none c rest hc]
      exact ih rest fun d hd => h d (List.mem_cons_of_mem _ hd)

/-- C6 (counterexample): the claim that a fallback tier turns colon-labeled
lines without bold markers into at least one PlanItem is false on the code:
the diet body "Breakfast: eat oats\nmore oats" (colon-labeled, zero bold
markers) parses to an empty item list. -/
theorem C6_counterexample :
    (parse_weekly_plan "## Day 1 ##\n### Detailed Diet Plan ###\nBreakfast: eat oats\nmore oats").map
        DayPlan.diet = [[]] := by
  decide

/-- C6 (amended): there is no fallback tier: item extraction consists of the
single bold-title regex, so every body text containing no `*` at all —
colon-labeled lines included — yields the empty item list (and no
exception). -/
theorem C6_theorem (txt : List Char) (h : ∀ c ∈ txt, c ≠ '*') :
    findAllItems txt = [] :=
  findAllItemsAux_no_star txt.length txt h

/-- C6 (witness): the amended statement at the colon-labeled body of spec
property P4. -/
theorem C6_witness :
    findAllItems "Breakfast: eat oats\nmore oats".data = [] :=
  C6_theorem "Breakfast: eat oats\nmore oats".data (by decide)

/-! ## Claim C7 -/

/-- C7 (counterexample): `generate_wellness_plan` is not a pure function
from profile to prompt string: for one fixed profile its result is the
external service's response, so it can be `None` (a failure mode) and two
calls with the same profile can return different values. -/
theorem C7_counterexample :
    generate_wellness_plan ⟨30, "Male", 170, 70, "Vegetarian", "Weight Loss"⟩
        (fun _ => none) = none ∧
    generate_wellness_plan ⟨30, "Male", 170, 70, "Vegetarian", "Weight Loss"⟩
        (fun _ => some "pong") = some "pong" ∧
    generate_wellness_plan ⟨30, "Male", 170, 70, "Vegetarian", "Weight Loss"⟩
        (fun _ => some "pong") ≠
      generate_wellness_plan ⟨30, "Male", 170, 70, "Vegetarian", "Weight Loss"⟩
        (fun _ => none) := by
  refine ⟨rfl, rfl, ?_⟩
  simp [generate_wellness_plan, generate_api_call]

/-- C7 (amended): the prompt construction itself is pure and deterministic —
`wellness_prompt` depends only on the profile — but `generate_wellness_plan`
does not return the prompt: it forwards the prompt to the API call and
returns that call's response, which may be `None`. -/
theorem C7_theorem (p : UserProfile) (api : String → Option String) :
    generate_wellness_plan p api = api (wellness_prompt p) := rfl

/-! ## Claim C8 -/

/-- C8 (counterexample): the Alternative action does not substitute the
parsed replacement at the given position: with Scenario C's replacement text
at day 0, diet index 1, the plan after the action still holds the original
item, not ("New Meal Name", "Prep in 5 minutes."). -/
theorem C8_counterexample :
    (suggest_alternative
        [{ calories := "1800 kcal",
           diet := [("Breakfast: Oats", "Cook oats."), ("Lunch: Salad", "Mix greens.")],
           exercise := [("Warm-up: Stretch", "5 minutes.")],
           motivation := "Stay consistent.", disclaimer := "Be careful." }]
        0 1 (some "**New Meal Name**\nPrep in 5 minutes.")).1 =
      [{ calories := "1800 kcal",
         diet := [("Breakfast: Oats", "Cook oats."), ("Lunch: Salad", "Mix greens.")],
         exercise := [("Warm-up: Stretch", "5 minutes.")],
         motivation := "Stay consistent.", disclaimer := "Be careful." }] ∧
    (suggest_alternative
        [{ calories := "1800 kcal",
           diet := [("Breakfast: Oats", "Cook oats."), ("Lunch: Salad", "Mix greens.")],
           exercise := [("Warm-up: Stretch", "5 minutes.")],
           motivation := "Stay consistent.", disclaimer := "Be careful." }]
        0 1 (some "**New Meal Name**\nPrep in 5 minutes.")).1 ≠
      [{ calories := "1800 kcal",
         diet := [("Breakfast: Oats", "Cook oats."), ("New Meal Name", "Prep in 5 minutes.")],
         exercise := [("Warm-up: Stretch", "5 minutes.")],
         motivation := "Stay consistent.", disclaimer := "Be careful." }] :=
  ⟨rfl, by decide⟩

/-- C8 (amended): the Alternative action never mutates the plan: for every
plan, day index, item index and replacement text the plan component of the
handler's result equals the input plan — the generated text is only
displayed, and no error is raised. -/
theorem C8_theorem (plan : List DayPlan) (dayIdx itemIdx : Nat)
    (alt : Option String) :
    (suggest_alternative plan dayIdx itemIdx alt).1 = plan := rfl

/-! ## Claim C9 -/

/-- C9: every `DayPlan` produced by the parser is a record with exactly the
five fields calories, diet, exercise, motivation and disclaimer, where
calories, motivation and disclaimer are (possibly empty) strings and diet
and exercise are (possibly empty) lists of string pairs, each field coming
from the corresponding extraction on the day block. -/
theorem C9_theorem (s : String) (d : DayPlan) (hd : d ∈ parse_weekly_plan s) :
    ∃ c ∈ (splitDays s.data).drop 1,
      d = { calories := ⟨fieldValue calorieMarker c⟩,
            diet := (findAllItems (fieldValue dietMarker c)).map (fun p => (⟨p.1⟩, ⟨p.2⟩)),
            exercise := (findAllItems (fieldValue exerciseMarker c)).map (fun p => (⟨p.1⟩, ⟨p.2⟩)),
            motivation := ⟨fieldValue motivationMarker c⟩,
            disclaimer := ⟨disclaimerText s.data⟩ } := by
  rcases (mem_parse_iff s d).mp hd with ⟨c, hc, rfl⟩
  exact ⟨c, hc, rfl⟩

/-- C9 (witness): the shape statement at a concrete one-day input. -/
theorem C9_witness :
    ∃ c ∈ (splitDays ("## Day 1 ##x" : String).data).drop 1,
      ({ calories := "", diet := [], exercise := [], motivation := "",
         disclaimer := "Standard disclaimer not found." } : DayPlan) =
        { calories := ⟨fieldValue calorieMarker c⟩,
          diet := (findAllItems (fieldValue dietMarker c)).map (fun p => (⟨p.1⟩, ⟨p.2⟩)),
          exercise := (findAllItems (fieldValue exerciseMarker c)).map (fun p => (⟨p.1⟩, ⟨p.2⟩)),
          motivation := ⟨fieldValue motivationMarker c⟩,
          disclaimer := ⟨disclaimerText ("## Day 1 ##x" : String).data⟩ } :=
  C9_theorem "## Day 1 ##x" _ (by decide)

/-! ## Claim C10 -/

/-- C10: the segment preceding the first day-marker match is discarded by
the `[1:]` of the day segmentation: the parser's output is built from the
remaining segments only, so text before the first day marker can influence
the output only through the disclaimer extraction (which scans the whole
input). -/
theorem C10_theorem (s : String) (pre : List Char) (rest : List (List Char))
    (h : splitDays s.data = pre :: rest) :
    parse_weekly_plan s = rest.map (buildDayPlan (disclaimerText s.data)) := by
  simp [parse_weekly_plan, h]

/-- C10 (witness): a concrete input whose text "a" before the first day
marker is dropped. -/
theorem C10_witness :
    parse_weekly_plan "a## Day 1 ##x" =
      [(['x'] : List Char)].map (buildDayPlan (disclaimerText ("a## Day 1 ##x" : String).data)) :=
  C10_theorem "a## Day 1 ##x" ['a'] [['x']] (by decide)

end WellnessApp
